import Mathlib

/-!
# Verification of the progress-session aggregator of `src/client/extension.ts`

This file shallowly embeds the progress-listener core of the repository's
single source file, `src/client/extension.ts`, and proves properties about it.

The embedded part is `createProgressListener` (lines 78–128) together with the
two event-class descriptors of `createProgressListeners` (lines 57–76):

* the listener object's four mutable fields `countChecked`, `nFiles`,
  `progress`, `resolve`;
* its three handlers `startCheckFiles`, `checkFile`, `endCheckFiles` and the
  private helper `percentComplete`;
* the dispatch of the six notification identifiers to the two listeners.

Conventions of the embedding:

* The JavaScript numbers involved are integer-valued throughout (a count of
  increment notifications and a total item count taken from the `start`
  payload); they are embedded as `Nat`.  The one arithmetic expression,
  `Math.floor(this.countChecked / (this.nFiles + 1) * 100)`, is embedded in
  the session model as the exact rational floor (`percentComplete`, equal to
  natural-number division by `percentComplete_eq_floor`).  The source
  evaluates it in IEEE-754 binary64, which can floor one below the exact
  value (57 against 58 at `29 / (49 + 1) * 100`); the double evaluation is
  modelled faithfully by `roundPos` / `jsPercentFloor` and is the
  arbiter wherever a claim turns on the rounding.
* The mutable listener together with its observable interactions with the
  host (surfaces acquired by `window.withProgress`, reports sent to a surface,
  invocations of a stored promise-`resolve` callback) is embedded as a
  `World` record that each handler transforms; surfaces and their release
  callbacks are identified by the sequence number of their acquisition.
  A `withProgress` surface is released exactly when the promise whose
  `resolve` the listener stores is first resolved; `resolvedCallbacks` logs
  every invocation of a stored `resolve`, in order.
* `this.resolve({})` in `endCheckFiles` is a JavaScript `TypeError` when the
  field `resolve` was never assigned (class fields `progress` and `resolve`
  start out `undefined`); a handler therefore returns, besides the new world,
  a `Bool` that is `true` when the call threw.  Field assignments that precede
  the throwing call have still happened in the returned world.
-/

/-- The `EventNames` record of `src/client/extension.ts` (lines 50–55): the
three notification identifiers and the title-formatting function of one
event class. -/
structure EventNames where
  startEvent : String
  incrementEvent : String
  endEvent : String
  title : Nat → String

/-- The mutable fields of the anonymous listener class created by
`createProgressListener` (lines 80–84).  `progress` and `resolve` are class
fields that start out `undefined` (`none`); when a run is active they hold
the surface handle and the promise-resolve callback, identified by the
acquisition sequence number. -/
structure Listener where
  countChecked : Nat
  nFiles : Nat
  progress : Option Nat
  resolve : Option Nat
deriving DecidableEq, Repr

/-- One `progress.report({message, increment})` call (line 106–107), tagged
with the surface it was sent to. -/
structure Report where
  surface : Nat
  message : String
  increment : Int
deriving DecidableEq, Repr

/-- The observable state of one listener: its mutable fields plus the log of
its interactions with the host editor.  `acquired` lists, in order, each
surface obtained from `window.withProgress` with its title; `reports` lists
every report sent to a surface; `resolvedCallbacks` lists every invocation of
a stored `resolve` callback.  `nextId` numbers surface acquisitions. -/
structure World where
  listener : Listener
  nextId : Nat
  acquired : List (Nat × String)
  reports : List Report
  resolvedCallbacks : List Nat
deriving DecidableEq, Repr

/-- A freshly created listener: `countChecked = 0`, `nFiles = 0` (field
initializers, lines 81–82), `progress` and `resolve` undefined; nothing
acquired, reported or resolved yet. -/
def initialWorld : World :=
  { listener := { countChecked := 0, nFiles := 0, progress := none, resolve := none }
    nextId := 0
    acquired := []
    reports := []
    resolvedCallbacks := [] }

/-- `startCheckFiles(nFiles)` (lines 86–95): calls `window.withProgress` with
title `names.title(nFiles)`, acquiring a fresh surface; the promise executor
runs synchronously and sets `countChecked := 0`, `nFiles`, `progress` and
`resolve` to the new run's values.  Nothing is done with the previous values
of `progress` and `resolve`: they are overwritten, and no stored callback is
invoked. -/
def startCheckFiles (names : EventNames) (nFiles : Nat) (w : World) : World :=
  let sid := w.nextId
  { w with
    nextId := sid + 1
    acquired := w.acquired ++ [(sid, names.title nFiles)]
    listener :=
      { countChecked := 0, nFiles := nFiles, progress := some sid, resolve := some sid } }

/-- `percentComplete()` (lines 97–99):
`Math.floor(this.countChecked / (this.nFiles + 1) * 100)` in exact
arithmetic; on the integer-valued fields this exact floor is natural-number
division, see `percentComplete_eq_floor`.  This is the idealization the
session model computes with.  The source evaluates the expression in
IEEE-754 binary64, which floors to one below the exact value at some
inputs (57 instead of 58 at `countChecked = 29`, `nFiles = 49`); the
faithful double computation is `jsPercentFloor`, and claims that turn on
the double rounding are settled against it. -/
def percentComplete (l : Listener) : Nat :=
  l.countChecked * 100 / (l.nFiles + 1)

/-- `checkFile(fileName)` (lines 101–109): guarded by
`if (this.progress != null)` (which in JavaScript also rejects `undefined`);
when a surface is held, computes the old percentage, increments
`countChecked`, computes the new percentage and reports
`{message: fileName, increment: newPercent - oldPercent}` to the surface. -/
def checkFile (fileName : String) (w : World) : World :=
  match w.listener.progress with
  | none => w
  | some sid =>
    let oldPercent := percentComplete w.listener
    let l := { w.listener with countChecked := w.listener.countChecked + 1 }
    let newPercent := percentComplete l
    { w with
      listener := l
      reports := w.reports ++
        [{ surface := sid, message := fileName
           increment := (newPercent : Int) - (oldPercent : Int) }] }

/-- `endCheckFiles()` (lines 111–116): unconditionally sets
`countChecked := 0`, `nFiles := 0`, `progress := null`, then calls
`this.resolve({})`.  The field `resolve` is not cleared.  When `resolve` was
never assigned the call is a `TypeError` (returned `Bool` is `true`) and no
callback is invoked; the three preceding assignments have already happened. -/
def endCheckFiles (w : World) : World × Bool :=
  let cleared :=
    { w.listener with countChecked := 0, nFiles := 0, progress := none }
  match w.listener.resolve with
  | none => ({ w with listener := cleared }, true)
  | some r =>
    ({ w with listener := cleared, resolvedCallbacks := w.resolvedCallbacks ++ [r] }, false)

/-- The `checkEvent` descriptor (lines 58–65). -/
def checkEvent : EventNames :=
  { startEvent := "fsharp/startCheckFiles"
    incrementEvent := "fsharp/checkFile"
    endEvent := "fsharp/endCheckFiles"
    title := fun nFiles => s!"Check {nFiles} files" }

/-- The `analyzeEvent` descriptor (lines 66–73). -/
def analyzeEvent : EventNames :=
  { startEvent := "fsharp/startAnalyzeProjects"
    incrementEvent := "fsharp/analyzeProject"
    endEvent := "fsharp/endAnalyzeProjects"
    title := fun nFiles => s!"Analyze {nFiles} projects" }

/-- An inbound notification: an identifier plus the payload the corresponding
handler expects (lines 119–127). -/
inductive Notification where
  | nstart (id : String) (total : Nat)
  | nincrement (id : String) (label : String)
  | nend (id : String)
deriving DecidableEq, Repr

/-- The identifier a notification is addressed to. -/
def Notification.idOf : Notification → String
  | .nstart id _ => id
  | .nincrement id _ => id
  | .nend id => id

/-- The three subscriptions `createProgressListener` registers for one
listener (lines 119–127): a notification is forwarded to the handler whose
identifier matches, otherwise the listener is untouched.  The `Bool` reports
whether the fired handler threw. -/
def dispatchOne (names : EventNames) (n : Notification) (w : World) : World × Bool :=
  match n with
  | .nstart id total =>
    if id = names.startEvent then (startCheckFiles names total w, false) else (w, false)
  | .nincrement id label =>
    if id = names.incrementEvent then (checkFile label w, false) else (w, false)
  | .nend id =>
    if id = names.endEvent then endCheckFiles w else (w, false)

/-- The state owned by `createProgressListeners` (lines 57–76): one listener
world per descriptor, `checkEvent` and `analyzeEvent`. -/
structure Registry where
  checkW : World
  analyzeW : World
deriving DecidableEq, Repr

/-- The registry as created by `createProgressListeners`: both listeners
fresh. -/
def initialRegistry : Registry :=
  { checkW := initialWorld, analyzeW := initialWorld }

/-- Delivery of one notification to the registry: each listener's three
subscriptions see it; only a matching identifier fires a handler. -/
def dispatch (r : Registry) (n : Notification) : Registry × Bool :=
  let c := dispatchOne checkEvent n r.checkW
  let a := dispatchOne analyzeEvent n r.analyzeW
  ({ checkW := c.1, analyzeW := a.1 }, c.2 || a.2)

/-- Folding a list of increment notifications through `checkFile`, in order:
the effect of `k` consecutive `incrementEvent` notifications. -/
def afterIncrements (labels : List String) (w : World) : World :=
  labels.foldl (fun w f => checkFile f w) w

/-- The percentage at `k` completed out of an expected `total`, as computed
by `percentComplete`: the exact-arithmetic idealization of line 98, which
diverges from the source's IEEE-double evaluation at e.g. `(29, 49)` —
see `jsPercentFloor`. -/
def perc (k total : Nat) : Nat :=
  k * 100 / (total + 1)

/-- The reports produced by a run of increments starting from `c` completed
items: the `i`-th report carries delta `perc (c+i+1) total - perc (c+i)
total`. -/
def deltaLog (sid total : Nat) : Nat → List String → List Report
  | _, [] => []
  | c, f :: fs =>
    { surface := sid, message := f
      increment := (perc (c + 1) total : Int) - (perc c total : Int) }
      :: deltaLog sid total (c + 1) fs

/-- The surfaces acquired but whose release callback was never invoked. -/
def openSurfaceIds (w : World) : List Nat :=
  (w.acquired.map Prod.fst).filter (fun i => !(w.resolvedCallbacks.contains i))

/-- The three notification identifiers `createProgressListener` subscribes
for the `checkEvent` listener. -/
def checkIds : List String :=
  [checkEvent.startEvent, checkEvent.incrementEvent, checkEvent.endEvent]

/-- The three notification identifiers `createProgressListener` subscribes
for the `analyzeEvent` listener. -/
def analyzeIds : List String :=
  [analyzeEvent.startEvent, analyzeEvent.incrementEvent, analyzeEvent.endEvent]

/-- The number of binary digits of `n` (0 for `n = 0`), by structural fuel
recursion so that it reduces under kernel evaluation; the fuel bounds the
arguments handled to `2 ^ 4096`, far beyond every quantity that occurs in a
binary64 computation (exponents stay within ±1075). -/
def nbitsAux : Nat → Nat → Nat
  | 0, _ => 0
  | fuel + 1, n => if n = 0 then 0 else nbitsAux fuel (n / 2) + 1

/-- The number of binary digits of `n`: `nbits n = ⌊log₂ n⌋ + 1` for
`n ≥ 1`. -/
def nbits (n : Nat) : Nat := nbitsAux 4096 n

/-- IEEE-754 binary64 rounding — round to nearest, ties to even, 53-bit
significand — of the positive rational `n / d`, returned as a
numerator/denominator pair (the denominator a power of two): the semantics
of JavaScript number arithmetic, in which the source evaluates
`this.countChecked / (this.nFiles + 1) * 100` (line 98).  Subnormal and
overflow handling are omitted (irrelevant at the magnitudes involved
here).  `e` is `⌊log₂ (n/d)⌋`, so `n/d · 2^(52-e)` lies in `[2^52, 2^53)`;
that scaled value is rounded to the integer significand `m` and the result
is `m · 2^(e-52)`. -/
def roundPos (n d : Nat) : Nat × Nat :=
  let c : ℤ := (nbits n : ℤ) - (nbits d : ℤ)
  let e : ℤ :=
    if 0 ≤ c then (if 2 ^ c.toNat * d ≤ n then c else c - 1)
    else (if d ≤ n * 2 ^ (-c).toNat then c else c - 1)
  let s : ℤ := 52 - e
  let scaledNum : Nat := if 0 ≤ s then n * 2 ^ s.toNat else n
  let scaledDen : Nat := if 0 ≤ s then d else d * 2 ^ (-s).toNat
  let q : Nat := scaledNum / scaledDen
  let r : Nat := scaledNum % scaledDen
  let m : Nat :=
    if scaledDen < 2 * r then q + 1
    else if 2 * r < scaledDen then q
    else if q % 2 = 0 then q else q + 1
  if 0 ≤ s then (m, 2 ^ s.toNat) else (m * 2 ^ (-s).toNat, 1)

/-- What `percentComplete` (line 98) actually computes under JavaScript
(IEEE-754 binary64) arithmetic:
`Math.floor(countChecked / (nFiles + 1) * 100)` with the division and the
multiplication each rounded to the nearest double (`countChecked`,
`nFiles + 1` and `100` are integers small enough to be exact doubles, and
`Math.floor` of a non-negative value is natural-number division by the
power-of-two denominator).  Differs from the exact floor `perc` at some
inputs, e.g. 57 against `perc 29 49 = 58`. -/
def jsPercentFloor (k T : Nat) : Nat :=
  if k = 0 then 0
  else
    let x := roundPos k (T + 1)
    let y := roundPos (x.1 * 100) x.2
    y.1 / y.2

/-! ## Helper lemmas -/

theorem percentComplete_eq_perc (l : Listener) :
    percentComplete l = perc l.countChecked l.nFiles := rfl

/-- `Math.floor(k / (T + 1) * 100)` on integer-valued inputs, computed in
exact arithmetic, is the natural-number division `k * 100 / (T + 1)`. -/
theorem perc_eq_floor (k T : Nat) :
    (perc k T : ℤ) = ⌊(k : ℚ) / ((T : ℚ) + 1) * 100⌋ := by
  have hq : (k : ℚ) / ((T : ℚ) + 1) * 100 = ((k * 100 : ℕ) : ℚ) / ((T + 1 : ℕ) : ℚ) := by
    push_cast
    ring
  rw [hq, ← Int.natCast_floor_eq_floor (by positivity), Nat.floor_div_eq_div]
  rfl

/-- The faithfulness bridge for `percentComplete`: the embedded value is the
exact floor of the source expression `countChecked / (nFiles + 1) * 100`. -/
theorem percentComplete_eq_floor (l : Listener) :
    (percentComplete l : ℤ) = ⌊(l.countChecked : ℚ) / ((l.nFiles : ℚ) + 1) * 100⌋ :=
  perc_eq_floor l.countChecked l.nFiles

theorem perc_mono (T : Nat) {k1 k2 : Nat} (h : k1 ≤ k2) : perc k1 T ≤ perc k2 T :=
  Nat.div_le_div_right (Nat.mul_le_mul_right 100 h)

theorem perc_lt_100 (T : Nat) : perc T T < 100 := by
  rw [perc, Nat.div_lt_iff_lt_mul (Nat.succ_pos T)]
  omega

theorem perc_ge_100 {k T : Nat} (h : T + 1 ≤ k) : 100 ≤ perc k T := by
  rw [perc, Nat.le_div_iff_mul_le (Nat.succ_pos T)]
  have := Nat.mul_le_mul_right 100 h
  omega

theorem perc_succ_total (T : Nat) : perc (T + 1) T = 100 := by
  rw [perc]
  exact Nat.mul_div_cancel_left 100 (Nat.succ_pos T)

theorem checkFile_held (f : String) (w : World) (sid : Nat)
    (h : w.listener.progress = some sid) :
    checkFile f w =
      { w with
        listener := { w.listener with countChecked := w.listener.countChecked + 1 }
        reports := w.reports ++
          [{ surface := sid, message := f
             increment := (perc (w.listener.countChecked + 1) w.listener.nFiles : Int)
               - (perc w.listener.countChecked w.listener.nFiles : Int) }] } := by
  simp [checkFile, h, percentComplete, perc]

/-- Running a list of increment notifications while a surface is held: the
count rises by the number of increments and the delta reports of `deltaLog`
are appended, everything else untouched. -/
theorem afterIncrements_run (labels : List String) :
    ∀ (w : World) (sid : Nat), w.listener.progress = some sid →
      afterIncrements labels w =
        { w with
          listener := { w.listener with countChecked := w.listener.countChecked + labels.length }
          reports := w.reports ++
            deltaLog sid w.listener.nFiles w.listener.countChecked labels } := by
  induction labels with
  | nil =>
    intro w sid h
    simp [afterIncrements, deltaLog]
  | cons f fs ih =>
    intro w sid h
    have hstep := checkFile_held f w sid h
    have h2 : (checkFile f w).listener.progress = some sid := by
      rw [hstep]; exact h
    have htail := ih (checkFile f w) sid h2
    have hchain : afterIncrements (f :: fs) w = afterIncrements fs (checkFile f w) := rfl
    rw [hchain, htail, hstep]
    simp [deltaLog, List.append_assoc]
    omega

theorem deltaLog_nonneg (sid total : Nat) (labels : List String) :
    ∀ c : Nat, ∀ rep ∈ deltaLog sid total c labels, 0 ≤ rep.increment := by
  induction labels with
  | nil =>
    intro c rep hrep
    simp [deltaLog] at hrep
  | cons f fs ih =>
    intro c rep hrep
    simp only [deltaLog, List.mem_cons] at hrep
    rcases hrep with h | h
    · subst h
      have := perc_mono total (show c ≤ c + 1 by omega)
      simp only []
      omega
    · exact ih (c + 1) rep h

theorem deltaLog_sum (sid total : Nat) (labels : List String) :
    ∀ c : Nat, ((deltaLog sid total c labels).map Report.increment).sum
      = (perc (c + labels.length) total : Int) - (perc c total : Int) := by
  induction labels with
  | nil =>
    intro c
    simp [deltaLog]
  | cons f fs ih =>
    intro c
    simp only [deltaLog, List.map_cons, List.sum_cons, ih (c + 1), List.length_cons]
    have h1 : c + 1 + fs.length = c + (fs.length + 1) := by omega
    rw [h1]
    omega

theorem deltaLog_map_increment (sid total : Nat) (labels : List String) :
    ∀ c : Nat, (deltaLog sid total c labels).map Report.increment
      = (List.range labels.length).map
          (fun i => (perc (c + i + 1) total : Int) - (perc (c + i) total : Int)) := by
  induction labels with
  | nil =>
    intro c
    simp [deltaLog]
  | cons f fs ih =>
    intro c
    have hcons : deltaLog sid total c (f :: fs)
        = { surface := sid, message := f
            increment := (perc (c + 1) total : Int) - (perc c total : Int) }
          :: deltaLog sid total (c + 1) fs := rfl
    rw [hcons, List.map_cons, ih (c + 1), List.length_cons, List.range_succ_eq_map,
      List.map_cons, List.map_map]
    simp only [List.cons.injEq]
    refine ⟨by simp, ?_⟩
    apply List.map_congr_left
    intro i _
    have e1 : c + 1 + i + 1 = c + (i + 1) + 1 := by omega
    have e2 : c + 1 + i = c + (i + 1) := by omega
    simp only [Function.comp_apply, Nat.succ_eq_add_one, e1, e2]

/-- A full run from any prior world: `start(T)` followed by the increments of
`labels`.  One fresh surface is acquired with title `names.title T`; the
listener ends holding that surface with `countChecked = labels.length`; the
delta reports are appended; no stored callback is invoked. -/
theorem run_after_start (names : EventNames) (T : Nat) (w : World) (labels : List String) :
    afterIncrements labels (startCheckFiles names T w) =
      { w with
        nextId := w.nextId + 1
        acquired := w.acquired ++ [(w.nextId, names.title T)]
        listener := { countChecked := labels.length, nFiles := T
                      progress := some w.nextId, resolve := some w.nextId }
        reports := w.reports ++ deltaLog w.nextId T 0 labels } := by
  rw [afterIncrements_run labels (startCheckFiles names T w) w.nextId rfl]
  simp [startCheckFiles]

theorem percent_after_run (names : EventNames) (T : Nat) (w : World) (labels : List String) :
    percentComplete (afterIncrements labels (startCheckFiles names T w)).listener
      = perc labels.length T := by
  rw [run_after_start]
  rfl

theorem endCheckFiles_resolve_some (w : World) (r : Nat) (h : w.listener.resolve = some r) :
    endCheckFiles w =
      ({ w with
         listener := { w.listener with countChecked := 0, nFiles := 0, progress := none }
         resolvedCallbacks := w.resolvedCallbacks ++ [r] }, false) := by
  simp [endCheckFiles, h]

theorem endCheckFiles_resolve_none (w : World) (h : w.listener.resolve = none) :
    endCheckFiles w =
      ({ w with
         listener := { w.listener with countChecked := 0, nFiles := 0, progress := none } },
        true) := by
  simp [endCheckFiles, h]

theorem endCheckFiles_preserves_resolve (w : World) :
    (endCheckFiles w).1.listener.resolve = w.listener.resolve := by
  cases h : w.listener.resolve <;> simp [endCheckFiles, h]

theorem endCheckFiles_clears_progress (w : World) :
    (endCheckFiles w).1.listener.progress = none := by
  cases h : w.listener.resolve <;> simp [endCheckFiles, h]

/-! ## Claims -/

/-- C1 counterexample: the claim says the computed percentage equals the
exact `floor(k / (T + 1) * 100)` for every `k ≤ T`, but at `k = 29`,
`T = 49` the source's IEEE-double evaluation of `29 / 50 * 100` yields
`57.99999999999999`, so `Math.floor` returns 57 while the exact floor is
58. -/
theorem claim1_counterexample :
    jsPercentFloor 29 49 = 57
    ∧ perc 29 49 = 58
    ∧ ((perc 29 49 : ℤ) = ⌊(29 : ℚ) / ((49 : ℚ) + 1) * 100⌋)
    ∧ jsPercentFloor 29 49 ≠ perc 29 49 :=
  ⟨by decide, by decide, perc_eq_floor 29 49, by decide⟩

/-- C1 (amended): for every total `T ≥ 0` and every `k ≤ T`, after a start
with total `T` followed by `k` increments, `countChecked` equals `k` and
the session's computed percentage — `Math.floor` of the IEEE-double
evaluation of `k / (T + 1) * 100` — is non-decreasing in the number of
increments; the percentage can fall one below the exact
`floor(k / (T + 1) * 100)` (57 instead of 58 at `k = 29`, `T = 49`), so the
claimed exact-floor equality does not hold. -/
theorem claim1_percent_monotone (names : EventNames) (T k : Nat)
    (labels : List String) (w : World) (hk : labels.length = k) (_hkT : k ≤ T) :
    (afterIncrements labels (startCheckFiles names T w)).listener.countChecked = k
      ∧ ∀ labels' : List String, labels'.length ≤ labels.length →
          percentComplete (afterIncrements labels' (startCheckFiles names T w)).listener
            ≤ percentComplete (afterIncrements labels (startCheckFiles names T w)).listener := by
  subst hk
  constructor
  · rw [run_after_start]
  · intro labels' hle
    rw [percent_after_run, percent_after_run]
    exact perc_mono T hle

theorem claim1_witness :
    (["a", "b"] : List String).length = 2 ∧ (2 : Nat) ≤ 3
      ∧ (afterIncrements ["a", "b"]
          (startCheckFiles checkEvent 3 initialWorld)).listener.countChecked = 2 :=
  ⟨by decide, by decide,
    (claim1_percent_monotone checkEvent 3 2 ["a", "b"] initialWorld (by decide)
      (by decide)).1⟩

/-- C2 counterexample: the claim says an end received while idle is a no-op
that raises no exception, but an end received before any start executes
`this.resolve({})` with `resolve` still `undefined`, a `TypeError` (the
handler's thrown-flag is `true`). -/
theorem claim2_counterexample : (endCheckFiles initialWorld).2 = true := by decide

/-- C2 (amended): an end notification received after a completed run raises
no exception — it re-invokes the stale release callback of the finished run
(resolving an already-settled promise) and re-zeroes the counters — but an
end received before any start throws a `TypeError`, because no release
callback was ever stored. -/
theorem claim2_end_idle (names : EventNames) (T : Nat) (labels : List String) (w : World) :
    ((endCheckFiles (endCheckFiles (afterIncrements labels (startCheckFiles names T w))).1).2
        = false)
    ∧ ((endCheckFiles
          (endCheckFiles (afterIncrements labels (startCheckFiles names T w))).1).1.resolvedCallbacks
        = (endCheckFiles (afterIncrements labels (startCheckFiles names T w))).1.resolvedCallbacks
            ++ [w.nextId])
    ∧ ((endCheckFiles initialWorld).2 = true) := by
  have h1 : (afterIncrements labels (startCheckFiles names T w)).listener.resolve
      = some w.nextId := by
    rw [run_after_start]
  have h2 : (endCheckFiles (afterIncrements labels (startCheckFiles names T w))).1.listener.resolve
      = some w.nextId := by
    rw [endCheckFiles_preserves_resolve, h1]
  refine ⟨?_, ?_, by decide⟩
  · rw [endCheckFiles_resolve_some _ _ h2]
  · rw [endCheckFiles_resolve_some _ _ h2]

/-- C3 counterexample: the claim says a start received while active releases
the prior surface first and never leaves two surfaces open, but after
`start(1)` immediately followed by `start(1)` two surfaces have been acquired
and no release callback has ever been invoked: both surfaces are open and the
first is leaked. -/
theorem claim3_counterexample :
    (openSurfaceIds (startCheckFiles checkEvent 1 (startCheckFiles checkEvent 1 initialWorld))).length
        = 2
    ∧ (startCheckFiles checkEvent 1 (startCheckFiles checkEvent 1 initialWorld)).resolvedCallbacks
        = []
    ∧ (startCheckFiles checkEvent 1 (startCheckFiles checkEvent 1 initialWorld)).acquired
        = [(0, "Check 1 files"), (1, "Check 1 files")] := by
  decide

/-- C3 (amended): a start notification received while the session is already
active acquires a fresh surface and overwrites the stored surface handle and
release callback with the new run's, without invoking the prior run's release
callback: the prior surface is never released by this transition, so the
session can hold two concurrently open surfaces and the prior surface handle
leaks. -/
theorem claim3_start_overwrites (names : EventNames) (total : Nat) (w : World) :
    (startCheckFiles names total w).resolvedCallbacks = w.resolvedCallbacks
    ∧ (startCheckFiles names total w).acquired = w.acquired ++ [(w.nextId, names.title total)]
    ∧ (startCheckFiles names total w).listener
        = { countChecked := 0, nFiles := total, progress := some w.nextId
            resolve := some w.nextId } :=
  ⟨rfl, rfl, rfl⟩

/-- C4: an increment notification received while no surface is held is a
silent no-op — the whole observable state, in particular `countChecked`,
`nFiles`, `progress` and `resolve`, is unchanged, no report is produced and
nothing is thrown; and no surface is held either in the initial state or
right after any end notification. -/
theorem claim4_increment_noop (fileName : String) (w : World)
    (h : w.listener.progress = none) :
    checkFile fileName w = w
    ∧ initialWorld.listener.progress = none
    ∧ ∀ w' : World, (endCheckFiles w').1.listener.progress = none := by
  refine ⟨by simp [checkFile, h], rfl, endCheckFiles_clears_progress⟩

theorem claim4_witness :
    initialWorld.listener.progress = none ∧ checkFile "x" initialWorld = initialWorld :=
  ⟨by decide, (claim4_increment_noop "x" initialWorld (by decide)).1⟩

/-- C5 counterexample: the claim says handling an end while active clears all
four run-scoped fields including the release callback, but after
`start(0)` followed by `end()` the `resolve` field still holds the finished
run's callback — it is never cleared. -/
theorem claim5_counterexample :
    ((endCheckFiles (startCheckFiles checkEvent 0 initialWorld)).1).listener.resolve = some 0
    ∧ ((endCheckFiles (startCheckFiles checkEvent 0 initialWorld)).1).listener.resolve
        ≠ none := by
  decide

/-- C5 (amended): handling an end notification while a release callback is
stored invokes that callback exactly once (releasing the surface), raises no
exception, and clears `countChecked`, `nFiles` and the surface handle,
returning the session to idle; the `resolve` field is not cleared and keeps
the stale callback. -/
theorem claim5_end_active (w : World) (r : Nat) (h : w.listener.resolve = some r) :
    endCheckFiles w =
      ({ w with
         listener := { countChecked := 0, nFiles := 0, progress := none, resolve := some r }
         resolvedCallbacks := w.resolvedCallbacks ++ [r] }, false) := by
  rw [endCheckFiles_resolve_some w r h]
  rw [show ({ w.listener with countChecked := 0, nFiles := 0, progress := none } : Listener)
      = { countChecked := 0, nFiles := 0, progress := none, resolve := some r } from by
    rw [← h]]

theorem claim5_witness :
    (startCheckFiles checkEvent 0 initialWorld).listener.resolve = some 0
    ∧ endCheckFiles (startCheckFiles checkEvent 0 initialWorld)
        = ({ listener := { countChecked := 0, nFiles := 0, progress := none, resolve := some 0 }
             nextId := 1
             acquired := [(0, "Check 0 files")]
             reports := []
             resolvedCallbacks := [0] }, false) :=
  ⟨rfl, claim5_end_active (startCheckFiles checkEvent 0 initialWorld) 0 rfl⟩

/-- C6: the reported percentage never reaches 100 when `countChecked` equals
`nFiles`: the `+1` in the denominator keeps `percent(T, T)` strictly below
100 for every total `T`. -/
theorem claim6_percent_lt_100 (l : Listener) (h : l.countChecked = l.nFiles) :
    percentComplete l < 100 := by
  rw [percentComplete_eq_perc, h]
  exact perc_lt_100 l.nFiles

theorem claim6_witness :
    ({ countChecked := 5, nFiles := 5, progress := none, resolve := none } : Listener).countChecked
      = ({ countChecked := 5, nFiles := 5, progress := none, resolve := none } : Listener).nFiles
    ∧ percentComplete { countChecked := 5, nFiles := 5, progress := none, resolve := none } < 100 :=
  ⟨rfl, claim6_percent_lt_100 { countChecked := 5, nFiles := 5, progress := none, resolve := none }
    rfl⟩

/-- C7 counterexample: the claim equates the deltas and their sum to the
exact formula `percent(k, T) = floor(k/(T+1)*100)`, but at `T = 49` the
source's double arithmetic makes the 29th report carry increment
`jsPercentFloor 29 49 - jsPercentFloor 28 49 = 1` where the exact formula
demands `perc 29 49 - perc 28 49 = 2`, and the telescoped sum of the first
29 deltas is `57`, not the claimed `perc 29 49 - perc 0 49 = 58`. -/
theorem claim7_counterexample :
    jsPercentFloor 29 49 - jsPercentFloor 28 49 = 1
    ∧ perc 29 49 - perc 28 49 = 2
    ∧ jsPercentFloor 29 49 - jsPercentFloor 0 49 = 57
    ∧ perc 29 49 - perc 0 49 = 58
    ∧ (57 : Nat) ≠ 58 := by
  refine ⟨by decide, by decide, by decide, by decide, by decide⟩

/-- C7 (amended): during a run `start(T)` followed by the increments of
`labels`, the `i`-th report appended while the surface is held carries
exactly the session's newly computed percentage minus its previous one —
the percentages the program itself computes, which can differ from the
exact `floor(k/(T+1)*100)` under the source's double arithmetic (1 against
2 for the 29th delta at `T = 49`) — each delta is non-negative, and the
deltas sum to the session's final percentage minus its percentage right
after the start. -/
theorem claim7_deltas_program (names : EventNames) (T : Nat) (w : World)
    (labels : List String) :
    (((afterIncrements labels (startCheckFiles names T w)).reports.drop
          w.reports.length).map Report.increment
        = (List.range labels.length).map (fun i =>
            (percentComplete (afterIncrements (labels.take (i + 1))
                (startCheckFiles names T w)).listener : Int)
            - (percentComplete (afterIncrements (labels.take i)
                (startCheckFiles names T w)).listener : Int)))
    ∧ (∀ rep ∈ (afterIncrements labels (startCheckFiles names T w)).reports.drop
          w.reports.length, 0 ≤ rep.increment)
    ∧ ((((afterIncrements labels (startCheckFiles names T w)).reports.drop
          w.reports.length).map Report.increment).sum
        = (percentComplete (afterIncrements labels (startCheckFiles names T w)).listener : Int)
          - (percentComplete (startCheckFiles names T w).listener : Int)) := by
  have hdrop : (afterIncrements labels (startCheckFiles names T w)).reports.drop
      w.reports.length = deltaLog w.nextId T 0 labels := by
    rw [run_after_start]
    exact List.drop_left w.reports (deltaLog w.nextId T 0 labels)
  have hstart : percentComplete (startCheckFiles names T w).listener = perc 0 T := rfl
  refine ⟨?_, ?_, ?_⟩
  · rw [hdrop]
    have hmap := deltaLog_map_increment w.nextId T labels 0
    rw [hmap]
    apply List.map_congr_left
    intro i hi
    rw [List.mem_range] at hi
    have h1 : percentComplete (afterIncrements (labels.take (i + 1))
        (startCheckFiles names T w)).listener = perc (i + 1) T := by
      rw [percent_after_run, List.length_take, Nat.min_eq_left hi]
    have h0 : percentComplete (afterIncrements (labels.take i)
        (startCheckFiles names T w)).listener = perc i T := by
      rw [percent_after_run, List.length_take, Nat.min_eq_left (by omega)]
    rw [h1, h0]
    simp
  · simp only [hdrop]
    exact deltaLog_nonneg _ _ _ 0
  · rw [hdrop, deltaLog_sum w.nextId T labels 0, percent_after_run, hstart]
    simp

theorem claim7_witness :
    ({ surface := 0, message := "a", increment := 25 } : Report)
      ∈ (afterIncrements ["a"] (startCheckFiles checkEvent 3 initialWorld)).reports.drop
          initialWorld.reports.length
    ∧ (0 : Int) ≤ ({ surface := 0, message := "a", increment := 25 } : Report).increment :=
  ⟨by decide, (claim7_deltas_program checkEvent 3 initialWorld ["a"]).2.1 _ (by decide)⟩

/-- C8: the scenario `start(3); increment("a"); increment("b");
increment("c"); end()` acquires exactly one surface, titled by the
descriptor's title for 3 items (`"Check 3 files"`), reports the delta
sequence `+25, +25, +25` with percentages `0 → 25 → 50 → 75`, invokes no
release before the third increment, and releases the surface exactly once at
the end, without an exception. -/
theorem claim8_scenario :
    (startCheckFiles checkEvent 3 initialWorld).acquired = [(0, "Check 3 files")]
    ∧ checkEvent.title 3 = "Check 3 files"
    ∧ (checkFile "c" (checkFile "b" (checkFile "a"
        (startCheckFiles checkEvent 3 initialWorld)))).reports
        = [{ surface := 0, message := "a", increment := 25 }
          , { surface := 0, message := "b", increment := 25 }
          , { surface := 0, message := "c", increment := 25 }]
    ∧ percentComplete (startCheckFiles checkEvent 3 initialWorld).listener = 0
    ∧ percentComplete (checkFile "a" (startCheckFiles checkEvent 3 initialWorld)).listener = 25
    ∧ percentComplete (checkFile "b" (checkFile "a"
        (startCheckFiles checkEvent 3 initialWorld))).listener = 50
    ∧ percentComplete (checkFile "c" (checkFile "b" (checkFile "a"
        (startCheckFiles checkEvent 3 initialWorld)))).listener = 75
    ∧ (checkFile "c" (checkFile "b" (checkFile "a"
        (startCheckFiles checkEvent 3 initialWorld)))).resolvedCallbacks = []
    ∧ (endCheckFiles (checkFile "c" (checkFile "b" (checkFile "a"
        (startCheckFiles checkEvent 3 initialWorld))))).1.resolvedCallbacks = [0]
    ∧ (endCheckFiles (checkFile "c" (checkFile "b" (checkFile "a"
        (startCheckFiles checkEvent 3 initialWorld))))).1.acquired = [(0, "Check 3 files")]
    ∧ (endCheckFiles (checkFile "c" (checkFile "b" (checkFile "a"
        (startCheckFiles checkEvent 3 initialWorld))))).2 = false := by
  decide

/-- C9: the two listeners created for the two descriptors hold fully
disjoint state: delivering any notification addressed to one of
`checkEvent`'s three identifiers leaves the `analyzeEvent` listener's whole
world (in particular `countChecked`, `nFiles`, `progress` and `resolve`)
unchanged, and symmetrically. -/
theorem claim9_sessions_disjoint (r : Registry) (n : Notification) :
    (n.idOf ∈ checkIds → (dispatch r n).1.analyzeW = r.analyzeW)
    ∧ (n.idOf ∈ analyzeIds → (dispatch r n).1.checkW = r.checkW) := by
  have hc : checkIds = ["fsharp/startCheckFiles", "fsharp/checkFile", "fsharp/endCheckFiles"] :=
    rfl
  have ha : analyzeIds
      = ["fsharp/startAnalyzeProjects", "fsharp/analyzeProject", "fsharp/endAnalyzeProjects"] :=
    rfl
  constructor <;> intro h <;> cases n <;>
    rw [Notification.idOf] at h <;>
    first
    | (rw [hc] at h
       simp only [List.mem_cons, List.not_mem_nil, or_false] at h
       rcases h with h | h | h <;> subst h <;>
         simp [dispatch, dispatchOne, analyzeEvent])
    | (rw [ha] at h
       simp only [List.mem_cons, List.not_mem_nil, or_false] at h
       rcases h with h | h | h <;> subst h <;>
         simp [dispatch, dispatchOne, checkEvent])

theorem claim9_witness :
    (Notification.nstart "fsharp/startCheckFiles" 3).idOf ∈ checkIds
    ∧ (dispatch initialRegistry (Notification.nstart "fsharp/startCheckFiles" 3)).1.analyzeW
        = initialRegistry.analyzeW :=
  ⟨by decide, (claim9_sessions_disjoint initialRegistry
    (Notification.nstart "fsharp/startCheckFiles" 3)).1 (by decide)⟩

/-- C10: increments beyond the expected total are not capped: while the
surface is held every increment raises `countChecked` by 1 regardless of
`nFiles`, so with `T + 1` increments the percentage reaches exactly 100, with
at least `T + 1` it is at least 100 and can exceed 100 (two increments after
`start(0)` give 200), and every reported delta is still non-negative. -/
theorem claim10_not_capped (names : EventNames) (T : Nat) (w : World)
    (labels : List String) (h : T + 1 ≤ labels.length) :
    (afterIncrements labels (startCheckFiles names T w)).listener.countChecked = labels.length
    ∧ 100 ≤ percentComplete (afterIncrements labels (startCheckFiles names T w)).listener
    ∧ (labels.length = T + 1 →
        percentComplete (afterIncrements labels (startCheckFiles names T w)).listener = 100)
    ∧ (∀ rep ∈ deltaLog w.nextId T 0 labels, 0 ≤ rep.increment)
    ∧ percentComplete (afterIncrements ["a", "b"] (startCheckFiles names 0 w)).listener = 200 := by
  refine ⟨?_, ?_, ?_, deltaLog_nonneg _ _ _ 0, ?_⟩
  · rw [run_after_start]
  · rw [percent_after_run]
    exact perc_ge_100 h
  · intro he
    rw [percent_after_run, he]
    exact perc_succ_total T
  · rw [percent_after_run]
    decide

theorem claim10_witness :
    1 + 1 ≤ (["a", "b"] : List String).length
    ∧ 100 ≤ percentComplete
        (afterIncrements ["a", "b"] (startCheckFiles checkEvent 1 initialWorld)).listener :=
  ⟨by decide,
    (claim10_not_capped checkEvent 1 initialWorld ["a", "b"] (by decide)).2.1⟩
